import Mathlib

/-!
Verification of `src/bin/sync_muk_projects.py` against its specification.

The script is sequential glue code around external collaborators (LDAP
lookups, filesystem stat/mutation primitives, a nagios reporter, a PID
lockfile).  We embed it shallowly: each external call's outcome (raises or
succeeds, and what it returns) is an explicit parameter of an environment
record, and each function of the script becomes a Lean function from options
and environment to a result together with a trace of the externally visible
events it performed, in order.  Python exceptions become `Except` values;
an exception that escapes a function is an `Except.error`.
-/

set_option autoImplicit false

namespace SyncMukProjects

/-- Nagios plugin convention exit codes, as used by `vsc.utils.nagios`
(`NAGIOS_EXIT_OK`, `NAGIOS_EXIT_WARNING`, `NAGIOS_EXIT_CRITICAL`). -/
def NAGIOS_EXIT_OK : Nat := 0

/-- Nagios WARNING exit code. -/
def NAGIOS_EXIT_WARNING : Nat := 1

/-- Nagios CRITICAL exit code. -/
def NAGIOS_EXIT_CRITICAL : Nat := 2

/-- The fixed set of institutes imported from `vsc.config.base`
(`ANTWERPEN, BRUSSEL, GENT, LEUVEN`, line 26 of the script). -/
inductive Institute where
  | ANTWERPEN
  | BRUSSEL
  | GENT
  | LEUVEN
deriving DecidableEq, Repr

/-- Modelled from the spec: `Muk().institutes` is the fixed enumerated set of
organizational units; the script imports exactly the four institute constants. -/
def mukInstitutes : List Institute :=
  [Institute.ANTWERPEN, Institute.BRUSSEL, Institute.GENT, Institute.LEUVEN]

/-- Python-level errors the script can raise. -/
inductive PyError where
  /-- A `NameError`: the given identifier is not defined at use time. -/
  | nameError (ident : String)
  /-- An `UnboundLocalError`: a local variable referenced before assignment. -/
  | unboundLocal (ident : String)
  /-- An exception propagating out of the directory-service lookup. -/
  | lookupError
deriving DecidableEq, Repr

/-- Externally visible events of a run, recorded in program order. -/
inductive Event where
  /-- `nagios_reporter.report_and_exit()` (line 142). -/
  | reportAndExit
  /-- `nagios_reporter.cache(code, NagiosResult(message, ...))`. -/
  | cacheReport (code : Nat) (message : String)
  /-- `lock_or_bork` succeeded in acquiring the lockfile (line 154). -/
  | acquireLock
  /-- The lockfile release attempt inside `release_or_bork` (line 213). -/
  | releaseLock
  /-- `Group.lookup(muk_project_group_filter)` (line 166). -/
  | groupLookup
  /-- `MukUser.lookup(users_filter & InstituteFilter(institute))` (line 55). -/
  | lookupUsers (institute : Institute)
  /-- `os.stat(muk.nfs_link_pathnames[institute]['home'])` (lines 62 / 110). -/
  | statNfs (institute : Institute)
  /-- The `logger.warning` skip of an institute in `force_nfs_mounts` (line 107). -/
  | warnSkip (institute : Institute)
  /-- `user.create_scratch_fileset()` invoked (line 93). -/
  | createScratchFileset (uid : String)
  /-- `user.populate_scratch_fallback()` invoked (line 94). -/
  | populateScratchFallback (uid : String)
  /-- `user.create_home_dir()` invoked (line 95). -/
  | createHomeDir (uid : String)
  /-- `write_timestamp(SYNC_TIMESTAMP_FILENAME, ldap_timestamp)` invoked
  (line 205); `ok = true` means the file was written, `ok = false` means the
  call raised. -/
  | writeTimestamp (ok : Bool)
deriving DecidableEq, Repr

/-- A changed entity returned by `MukUser.lookup`.  The three `raise*` fields
record whether the corresponding external provisioning primitive raises when
invoked on this entity (the primitives live in `vsc.administration.user`,
outside this script). -/
structure MukUser where
  user_id : String
  raiseCreateScratchFileset : Bool
  raisePopulateScratchFallback : Bool
  raiseCreateHomeDir : Bool
  dry_run : Bool := false
deriving DecidableEq, Repr

/-- The command line options the embedded fragment depends on. -/
structure Options where
  dry_run : Bool
  nagios : Bool
deriving DecidableEq, Repr

/-- The body of the per-user `try` block of `process` (lines 92-95): invoke
`create_scratch_fileset`, `populate_scratch_fallback`, `create_home_dir` in
that order, stopping at the first call that raises.  Returns the invocation
events and whether an exception was raised. -/
def runUserSteps (user : MukUser) : List Event × Bool :=
  if user.raiseCreateScratchFileset then
    ([Event.createScratchFileset user.user_id], true)
  else if user.raisePopulateScratchFallback then
    ([Event.createScratchFileset user.user_id,
      Event.populateScratchFallback user.user_id], true)
  else if user.raiseCreateHomeDir then
    ([Event.createScratchFileset user.user_id,
      Event.populateScratchFallback user.user_id,
      Event.createHomeDir user.user_id], true)
  else
    ([Event.createScratchFileset user.user_id,
      Event.populateScratchFallback user.user_id,
      Event.createHomeDir user.user_id], false)

/-- Embeds `process` (lines 79-100): for each user, set `dry_run` when the
option is given, run the three steps, and on exception append the user to
`error_users` and continue with the next user.  Returns `error_users` and the
trace of provisioning invocations. -/
def process (options : Options) (users : List MukUser) : List MukUser × List Event :=
  match users with
  | [] => ([], [])
  | user :: rest =>
      let u := if options.dry_run then { user with dry_run := true } else user
      ((if (runUserSteps u).2 then u :: (process options rest).1
        else (process options rest).1),
       (runUserSteps u).1 ++ (process options rest).2)

/-- Whether any of the three provisioning steps raises for this user. -/
def userRaises (user : MukUser) : Bool :=
  user.raiseCreateScratchFileset || user.raisePopulateScratchFallback ||
    user.raiseCreateHomeDir

/-- The full three-step invocation sequence for a user, in the strict order
fileset, fallback, home directory. -/
def fullSteps (user : MukUser) : List Event :=
  [Event.createScratchFileset user.user_id,
   Event.populateScratchFallback user.user_id,
   Event.createHomeDir user.user_id]

/-- How many of the three steps are invoked for a user: everything up to and
including the first raising step. -/
def stepsInvoked (user : MukUser) : Nat :=
  if user.raiseCreateScratchFileset then 1
  else if user.raisePopulateScratchFallback then 2
  else 3

/-- The `dry_run` flag threading of lines 90-91. -/
def applyDryRun (options : Options) (user : MukUser) : MukUser :=
  if options.dry_run then { user with dry_run := true } else user

/-- Outcomes of external calls made by `process_institute` for one institute.
`processCallRaises` models the call to `process` itself raising on entry (every
per-user exception is already caught inside `process`, so this is the abnormal
path guarded by the inner `try` of lines 63-66). -/
structure InstEnv where
  changed_users : List MukUser
  lookupRaises : Bool
  statRaises : Bool
  processCallRaises : Bool
deriving Repr

/-- The `{'ok': ..., 'fail': ...}` dictionary returned by `process_institute`. -/
structure InstResult where
  ok : Nat
  fail : Nat
deriving DecidableEq, Repr

/-- Embeds `process_institute` (lines 52-76).  The lookup of line 55 happens
first, outside any `try`; if it raises, the exception propagates.  Then the
outer `try` stats the NFS mount path; on stat failure `error_users` is set to
all changed users.  If the stat succeeds and the guarded call to `process`
raises, the inner `except` only logs, so line 71 reads the never-assigned
local `error_users` and the function raises `UnboundLocalError`. -/
def process_institute (options : Options) (institute : Institute) (env : InstEnv) :
    Except PyError InstResult × List Event :=
  if env.lookupRaises then
    (Except.error PyError.lookupError, [Event.lookupUsers institute])
  else
    let changed_users := env.changed_users
    if env.statRaises then
      let error_users := changed_users
      let fail_usercount := error_users.length
      let ok_usercount := changed_users.length - fail_usercount
      (Except.ok { ok := ok_usercount, fail := fail_usercount },
       [Event.lookupUsers institute, Event.statNfs institute])
    else if env.processCallRaises then
      (Except.error (PyError.unboundLocal "error_users"),
       [Event.lookupUsers institute, Event.statNfs institute])
    else
      let error_users := (process options changed_users).1
      let fail_usercount := error_users.length
      let ok_usercount := changed_users.length - fail_usercount
      (Except.ok { ok := ok_usercount, fail := fail_usercount },
       [Event.lookupUsers institute, Event.statNfs institute] ++
         (process options changed_users).2)

/-- The loop body of `force_nfs_mounts` (lines 105-113), parameterised by which
institutes' `os.stat` raises: `BRUSSEL` is skipped with a warning before any
stat; otherwise the mount path is statted and the institute appended only when
the stat succeeds. -/
def forceNfsLoop (statFails : Institute → Bool) :
    List Institute → List Institute × List Event
  | [] => ([], [])
  | institute :: rest =>
      if institute = Institute.BRUSSEL then
        ((forceNfsLoop statFails rest).1,
         Event.warnSkip institute :: (forceNfsLoop statFails rest).2)
      else if statFails institute then
        ((forceNfsLoop statFails rest).1,
         Event.statNfs institute :: (forceNfsLoop statFails rest).2)
      else
        (institute :: (forceNfsLoop statFails rest).1,
         Event.statNfs institute :: (forceNfsLoop statFails rest).2)

/-- Embeds `force_nfs_mounts` (lines 102-115): iterate `muk.institutes`
accumulating the institutes whose NFS mount path stats successfully. -/
def force_nfs_mounts (statFails : Institute → Bool) : List Institute × List Event :=
  forceNfsLoop statFails mukInstitutes

/-- Outcomes of the external calls made by `main`.  `bootstrapRaises` covers an
exception from the LDAP binding initialisation or from the group resolution of
lines 159-169 (including the empty-result `IndexError` branch, whose
`logger.raiseException` re-raises).  `memberUids` is `muk_group.memberUid`. -/
structure MainEnv where
  proceedOnHa : Bool
  lockOk : Bool
  bootstrapRaises : Bool
  memberUids : List String
  convertRaises : Bool
  writeRaises : Bool
  releaseOk : Bool
deriving DecidableEq, Repr

/-- How a run of `main` terminates. -/
inductive Outcome where
  /-- `sys.exit(code)`, or a terminating external call with that code. -/
  | exited (code : Nat)
  /-- An exception escaped `main`; the interpreter aborts with a traceback. -/
  | crashed (err : PyError)
  /-- `main` returned normally; the process exits 0. -/
  | finished
deriving DecidableEq, Repr

/-- Modelled from the spec: `release_or_bork` (from `vsc.utils.lock`, outside
this repository) always attempts the release; on release failure the prior
result is overwritten by a warning report and the process terminates. -/
def releaseOrBork (env : MainEnv) (message : String) : Outcome × List Event :=
  if env.releaseOk then (Outcome.finished, [Event.releaseLock])
  else (Outcome.exited NAGIOS_EXIT_WARNING,
        [Event.releaseLock, Event.cacheReport NAGIOS_EXIT_WARNING message])

/-- Embeds `main` (lines 118-215).  Notable points, faithful to the source:

* the `--nagios` branch (lines 141-143) only calls
  `nagios_reporter.report_and_exit()`; that call is modelled from the spec
  (the reporter lives outside this repository): it emits the last cached
  health report and terminates immediately with exit code 0, so the
  `sys.exit(0)` of line 143 is not reached;
* lines 171 and 177 reference the undefined names `MukProject` and
  `process_project`; with a non-empty `memberUid` list the comprehension of
  line 171 raises `NameError`, which the `except Exception` of line 182
  catches — but the handler itself evaluates the undefined name
  `SYNC_MUK_USERS_LOGFILE` (line 186) and so raises `NameError` before
  caching the CRITICAL report or releasing the lock;
* with an empty `memberUid` list the comprehension and the loop body never
  evaluate the undefined names, `projects_fail` stays 0, and the run falls
  through to the timestamp/report branch of lines 200-210. -/
def main (opts : Options) (env : MainEnv) : Outcome × List Event :=
  if opts.nagios then
    (Outcome.exited 0, [Event.reportAndExit])
  else if ! env.proceedOnHa then
    (Outcome.exited NAGIOS_EXIT_WARNING,
     [Event.cacheReport NAGIOS_EXIT_WARNING "Not running on the HA master."])
  else if ! env.lockOk then
    (Outcome.exited NAGIOS_EXIT_CRITICAL,
     [Event.cacheReport NAGIOS_EXIT_CRITICAL "Unable to take a lock"])
  else if env.bootstrapRaises then
    (Outcome.crashed (PyError.nameError "SYNC_MUK_USERS_LOGFILE"),
     [Event.acquireLock, Event.groupLookup])
  else if ! env.memberUids.isEmpty then
    (Outcome.crashed (PyError.nameError "SYNC_MUK_USERS_LOGFILE"),
     [Event.acquireLock, Event.groupLookup])
  else
    let projects_fail := 0
    if projects_fail > 0 then
      ((releaseOrBork env "muk projects synchronised, lock release failed").1,
       [Event.acquireLock, Event.groupLookup,
        Event.cacheReport NAGIOS_EXIT_WARNING "several projects were not synched"] ++
         (releaseOrBork env "muk projects synchronised, lock release failed").2)
    else
      let reportEvents :=
        if env.convertRaises then
          [Event.cacheReport NAGIOS_EXIT_WARNING
            "muk projects synchronised, filestamp not written"]
        else if opts.dry_run then
          [Event.cacheReport NAGIOS_EXIT_OK "muk projects synchronised"]
        else if env.writeRaises then
          [Event.writeTimestamp false,
           Event.cacheReport NAGIOS_EXIT_WARNING
             "muk projects synchronised, filestamp not written"]
        else
          [Event.writeTimestamp true,
           Event.cacheReport NAGIOS_EXIT_OK "muk projects synchronised"]
      ((releaseOrBork env "muk projects synchronised, lock release failed").1,
       [Event.acquireLock, Event.groupLookup] ++ reportEvents ++
         (releaseOrBork env "muk projects synchronised, lock release failed").2)

/-! ## Basic lemmas about the per-user provisioning steps -/

/-- `runUserSteps` invokes exactly the steps up to and including the first
raising one, in the canonical order, and reports whether any step raised. -/
theorem runUserSteps_eq (user : MukUser) :
    runUserSteps user = ((fullSteps user).take (stepsInvoked user), userRaises user) := by
  rcases user with ⟨uid, r1, r2, r3, d⟩
  cases r1 <;> cases r2 <;> cases r3 <;>
    simp [runUserSteps, fullSteps, stepsInvoked, userRaises]

/-- Unfolding of `process` on a non-empty user list, in terms of the
closed-form step description. -/
theorem process_cons (options : Options) (user : MukUser) (rest : List MukUser) :
    process options (user :: rest) =
      ((if userRaises (applyDryRun options user) then
          applyDryRun options user :: (process options rest).1
        else (process options rest).1),
       (fullSteps (applyDryRun options user)).take
           (stepsInvoked (applyDryRun options user)) ++ (process options rest).2) := by
  simp only [process, applyDryRun, runUserSteps_eq]

/-- The failed list produced by `process` is exactly the (dry-run-threaded)
users for which some provisioning step raises. -/
theorem process_fst (options : Options) (users : List MukUser) :
    (process options users).1 = (users.map (applyDryRun options)).filter userRaises := by
  induction users with
  | nil => simp [process]
  | cons user rest ih =>
      rw [process_cons]
      cases h : userRaises (applyDryRun options user) <;>
        simp [h, ih, List.filter_cons]

/-- The trace produced by `process` is the concatenation, in list order, of
each user's canonical step sequence truncated at its first raising step. -/
theorem process_snd (options : Options) (users : List MukUser) :
    (process options users).2 =
      (users.map (applyDryRun options)).flatMap
        (fun u => (fullSteps u).take (stepsInvoked u)) := by
  induction users with
  | nil => simp [process]
  | cons user rest ih =>
      rw [process_cons]
      cases h : userRaises (applyDryRun options user) <;> simp [ih]

/-- C3: for every entity in the processed list, the Provisioner invokes
`create_scratch_fileset`, `populate_scratch_fallback`, `create_home_dir` in
that strict order; if a step raises, the entity's remaining steps are not
invoked (the per-entity trace is the canonical sequence truncated at the first
raising step) and the entity joins the failed list, while processing continues
with the next entity (the whole trace is the concatenation of the per-entity
traces in list order); the failed list is exactly the entities with a raising
step, so an entity with no raising step never appears in it. -/
theorem process_isolates_failures (options : Options) (users : List MukUser) :
    (process options users).1 = (users.map (applyDryRun options)).filter userRaises ∧
    (process options users).2 =
      (users.map (applyDryRun options)).flatMap
        (fun u => (fullSteps u).take (stepsInvoked u)) ∧
    ∀ u, u ∈ (process options users).1 → userRaises u = true := by
  refine ⟨process_fst options users, process_snd options users, ?_⟩
  intro u hu
  rw [process_fst] at hu
  exact (List.mem_filter.mp hu).2

/-! ## Concrete fixtures -/

/-- A user whose three provisioning steps all succeed. -/
def userAllOk : MukUser :=
  { user_id := "vsc40001", raiseCreateScratchFileset := false,
    raisePopulateScratchFallback := false, raiseCreateHomeDir := false }

/-- A second user whose three provisioning steps all succeed. -/
def userAlsoOk : MukUser :=
  { user_id := "vsc40002", raiseCreateScratchFileset := false,
    raisePopulateScratchFallback := false, raiseCreateHomeDir := false }

/-- Options of a plain run: neither `--dry-run` nor `--nagios`. -/
def optsRun : Options := { dry_run := false, nagios := false }

/-- Institute environment: two users looked up, mount stat raises. -/
def envStatFail : InstEnv :=
  { changed_users := [userAllOk, userAlsoOk], lookupRaises := false,
    statRaises := true, processCallRaises := false }

/-- Institute environment: the directory-service lookup itself raises. -/
def envLookupFail : InstEnv :=
  { changed_users := [userAllOk, userAlsoOk], lookupRaises := true,
    statRaises := false, processCallRaises := false }

/-- Institute environment: one user, every external call succeeds. -/
def envOneUser : InstEnv :=
  { changed_users := [userAllOk], lookupRaises := false,
    statRaises := false, processCallRaises := false }

/-- Institute environment: lookup and stat succeed, the guarded call to
`process` raises. -/
def envProcessFail : InstEnv :=
  { changed_users := [userAllOk], lookupRaises := false,
    statRaises := false, processCallRaises := true }

/-! ## Per-institute claims -/

/-- C4: for every institute whose mount-point stat check fails, the returned
counts mark every looked-up entity failed (`fail` = number of looked-up
entities, `ok` = 0), and the trace shows a single stat attempt and zero
provisioning calls for any entity of that institute. -/
theorem mount_guard_failure_all_failed (options : Options) (institute : Institute)
    (env : InstEnv) (hl : env.lookupRaises = false) (hs : env.statRaises = true) :
    (process_institute options institute env).1 =
      Except.ok { ok := 0, fail := env.changed_users.length } ∧
    (process_institute options institute env).2 =
      [Event.lookupUsers institute, Event.statNfs institute] := by
  simp [process_institute, hl, hs]

/-- Witness for C4 at a concrete institute environment with two users. -/
theorem mount_guard_failure_all_failed_witness :
    envStatFail.lookupRaises = false ∧ envStatFail.statRaises = true ∧
    ((process_institute optsRun Institute.GENT envStatFail).1 =
        Except.ok { ok := 0, fail := envStatFail.changed_users.length } ∧
      (process_institute optsRun Institute.GENT envStatFail).2 =
        [Event.lookupUsers Institute.GENT, Event.statNfs Institute.GENT]) :=
  ⟨rfl, rfl, mount_guard_failure_all_failed optsRun Institute.GENT envStatFail rfl rfl⟩

/-- C5 counterexample: when the lookup raises for an institute with two
looked-up entities, `process_institute` propagates the exception and returns
no ok/fail counts at all — contradicting the claim that all of the institute's
entities are "marked failed in the returned counts". -/
theorem lookup_failure_no_counts_cex :
    (process_institute optsRun Institute.GENT envLookupFail).1 =
      Except.error PyError.lookupError ∧
    (process_institute optsRun Institute.GENT envLookupFail).1.toOption = none := by
  exact ⟨rfl, rfl⟩

/-- C5 (amended): if the directory-service entity lookup raises, the exception
propagates out of `process_institute`, the institute's processing aborts
immediately (no stat, no provisioning call), and no ok/fail counts are
returned. -/
theorem lookup_failure_propagates (options : Options) (institute : Institute)
    (env : InstEnv) (h : env.lookupRaises = true) :
    (process_institute options institute env).1 = Except.error PyError.lookupError ∧
    (process_institute options institute env).2 = [Event.lookupUsers institute] := by
  simp [process_institute, h]

/-- Witness for the amended C5 at a concrete institute environment. -/
theorem lookup_failure_propagates_witness :
    envLookupFail.lookupRaises = true ∧
    ((process_institute optsRun Institute.ANTWERPEN envLookupFail).1 =
        Except.error PyError.lookupError ∧
      (process_institute optsRun Institute.ANTWERPEN envLookupFail).2 =
        [Event.lookupUsers Institute.ANTWERPEN]) :=
  ⟨rfl, lookup_failure_propagates optsRun Institute.ANTWERPEN envLookupFail rfl⟩

/-- C10: `process_institute` raises `UnboundLocalError` on `error_users`
exactly when the lookup and the stat succeed but the guarded call to `process`
raises; an institute-level ok/fail result is produced exactly when `process`
returns normally or the stat fails (given the lookup succeeded). -/
theorem process_raise_unbound_local (options : Options) (institute : Institute)
    (env : InstEnv) :
    ((process_institute options institute env).1 =
        Except.error (PyError.unboundLocal "error_users") ↔
      env.lookupRaises = false ∧ env.statRaises = false ∧
        env.processCallRaises = true) ∧
    ((∃ r : InstResult, (process_institute options institute env).1 = Except.ok r) ↔
      env.lookupRaises = false ∧
        (env.statRaises = true ∨ env.processCallRaises = false)) := by
  rcases env with ⟨cu, lr, sr, pr⟩
  cases lr <;> cases sr <;> cases pr <;> simp [process_institute]

/-- C1 counterexample: in a fully successful per-institute run the trace
starts with the entity lookup, and the mount stat only comes second — the
mount reachability check does not happen before the institute's entity lookup
query. -/
theorem lookup_before_mount_check_cex :
    (process_institute optsRun Institute.GENT envOneUser).2 =
      [Event.lookupUsers Institute.GENT, Event.statNfs Institute.GENT,
       Event.createScratchFileset "vsc40001",
       Event.populateScratchFallback "vsc40001",
       Event.createHomeDir "vsc40001"] ∧
    (process_institute optsRun Institute.GENT envOneUser).2.take 1 =
      [Event.lookupUsers Institute.GENT] := by
  exact ⟨rfl, rfl⟩

/-- C1 (amended): within `process_institute` the order is Entity Lookup, then
Mount Guard, then per-entity provisioning: whenever the lookup returns, the
trace is the lookup event, then the single mount stat event, then the
provisioning events (which are present only when the stat and the `process`
call succeed).  In particular the mount check precedes every provisioning call
but follows the lookup. -/
theorem institute_event_order (options : Options) (institute : Institute)
    (env : InstEnv) (h : env.lookupRaises = false) :
    (process_institute options institute env).2 =
      Event.lookupUsers institute :: Event.statNfs institute ::
        (if env.statRaises || env.processCallRaises then []
         else (process options env.changed_users).2) := by
  rcases env with ⟨cu, lr, sr, pr⟩
  cases h
  cases sr <;> cases pr <;> simp [process_institute]

/-- Witness for the amended C1 at a concrete institute environment. -/
theorem institute_event_order_witness :
    envOneUser.lookupRaises = false ∧
    (process_institute optsRun Institute.LEUVEN envOneUser).2 =
      Event.lookupUsers Institute.LEUVEN :: Event.statNfs Institute.LEUVEN ::
        (if envOneUser.statRaises || envOneUser.processCallRaises then []
         else (process optsRun envOneUser.changed_users).2) :=
  ⟨rfl, institute_event_order optsRun Institute.LEUVEN envOneUser rfl⟩

/-! ## Fixtures and helper lemmas for runs of `main` -/

/-- Options with the `--nagios` flag set. -/
def optsNagios : Options := { dry_run := false, nagios := true }

/-- Run environment: everything healthy, one project in the autogroup. -/
def envProjects : MainEnv :=
  { proceedOnHa := true, lockOk := true, bootstrapRaises := false,
    memberUids := ["gpr001"], convertRaises := false, writeRaises := false,
    releaseOk := true }

/-- Run environment: lock acquired, then the directory bootstrap raises. -/
def envBootstrapFail : MainEnv :=
  { proceedOnHa := true, lockOk := true, bootstrapRaises := true,
    memberUids := [], convertRaises := false, writeRaises := false,
    releaseOk := true }

/-- Run environment: empty autogroup, all external calls succeed except the
timestamp write, which raises. -/
def envWriteFail : MainEnv :=
  { proceedOnHa := true, lockOk := true, bootstrapRaises := false,
    memberUids := [], convertRaises := false, writeRaises := true,
    releaseOk := true }

/-- Run environment: empty autogroup, every external call succeeds. -/
def envCleanRun : MainEnv :=
  { proceedOnHa := true, lockOk := true, bootstrapRaises := false,
    memberUids := [], convertRaises := false, writeRaises := false,
    releaseOk := true }

/-- No run of `main` ever performs a per-institute entity lookup: `main` never
calls `process_institute` (nor `force_nfs_mounts`). -/
theorem main_no_institute_lookup (i : Institute) (opts : Options) (env : MainEnv) :
    Event.lookupUsers i ∉ (main opts env).2 := by
  simp only [main, releaseOrBork]
  split_ifs <;> simp

/-! ## Run-level claims -/

/-- C7: `force_nfs_mounts` — the only code path of the script that iterates
institutes — always skips `BRUSSEL` with a warning: `BRUSSEL`'s mount path is
never statted, `BRUSSEL` never appears among the returned mounted institutes,
and the warning event is always emitted; moreover no run of `main` ever
performs an entity lookup for `BRUSSEL` (`main` performs no per-institute
lookup at all). -/
theorem brussel_never_processed (statFails : Institute → Bool) :
    Institute.BRUSSEL ∉ (force_nfs_mounts statFails).1 ∧
    Event.statNfs Institute.BRUSSEL ∉ (force_nfs_mounts statFails).2 ∧
    Event.warnSkip Institute.BRUSSEL ∈ (force_nfs_mounts statFails).2 ∧
    ∀ (opts : Options) (env : MainEnv),
      Event.lookupUsers Institute.BRUSSEL ∉ (main opts env).2 := by
  refine ⟨?_, ?_, ?_, fun opts env => main_no_institute_lookup Institute.BRUSSEL opts env⟩ <;>
    cases hA : statFails Institute.ANTWERPEN <;>
      cases hG : statFails Institute.GENT <;>
        cases hL : statFails Institute.LEUVEN <;>
          simp [force_nfs_mounts, mukInstitutes, forceNfsLoop, hA, hG, hL]

/-- C8: with the `--nagios` flag set, `main` only emits the cached health
report and terminates with exit code 0: the whole trace is the single
report-and-exit event, so no lock is acquired, no lookup or entity processing
happens, and no persisted state is mutated. -/
theorem nagios_short_circuit (opts : Options) (env : MainEnv)
    (h : opts.nagios = true) :
    main opts env = (Outcome.exited 0, [Event.reportAndExit]) := by
  simp [main, h]

/-- Witness for C8 at the concrete nagios options. -/
theorem nagios_short_circuit_witness :
    optsNagios.nagios = true ∧
    main optsNagios envProjects = (Outcome.exited 0, [Event.reportAndExit]) :=
  ⟨rfl, nagios_short_circuit optsNagios envProjects rfl⟩

/-- C6 (code bug): at the failing input — lock acquired, directory bootstrap
raises — the `except` handler of line 182 evaluates the undefined name
`SYNC_MUK_USERS_LOGFILE` (line 186) and raises `NameError` before caching the
CRITICAL report or releasing the lock, so the run crashes with the lock still
held: the trace ends at the group lookup, with no release and no cached
report of any kind. -/
theorem bootstrap_exception_skips_release :
    main optsRun envBootstrapFail =
      (Outcome.crashed (PyError.nameError "SYNC_MUK_USERS_LOGFILE"),
       [Event.acquireLock, Event.groupLookup]) ∧
    Event.releaseLock ∉ (main optsRun envBootstrapFail).2 ∧
    Event.cacheReport NAGIOS_EXIT_CRITICAL
        "Script failed, check log file (/var/log/sync_muk_projects.log)" ∉
      (main optsRun envBootstrapFail).2 := by
  refine ⟨rfl, by decide, by decide⟩

/-- C9 counterexample: with one project id in the member list the run crashes
with an unhandled `NameError`: contrary to the claim, no CRITICAL report is
cached (the trace holds no cache event at all), the lock is not released, and
the process does not exit with the critical exit code. -/
theorem nonempty_projects_crash_cex :
    main optsRun envProjects =
      (Outcome.crashed (PyError.nameError "SYNC_MUK_USERS_LOGFILE"),
       [Event.acquireLock, Event.groupLookup]) ∧
    Event.releaseLock ∉ (main optsRun envProjects).2 ∧
    (main optsRun envProjects).1 ≠ Outcome.exited NAGIOS_EXIT_CRITICAL := by
  refine ⟨rfl, by decide, by decide⟩

/-- C9 (amended): every run that reaches the per-project loop with a non-empty
member list raises `NameError` on the undefined `MukProject`; the `except`
handler then itself raises `NameError` on the undefined
`SYNC_MUK_USERS_LOGFILE`, so the run crashes without caching any report,
without releasing the lock, and without reaching the timestamp write; only a
run with an empty member list can reach the success/timestamp path. -/
theorem nonempty_projects_crash (opts : Options) (env : MainEnv)
    (h1 : opts.nagios = false) (h2 : env.proceedOnHa = true)
    (h3 : env.lockOk = true) (h4 : env.bootstrapRaises = false)
    (h5 : env.memberUids ≠ []) :
    main opts env =
      (Outcome.crashed (PyError.nameError "SYNC_MUK_USERS_LOGFILE"),
       [Event.acquireLock, Event.groupLookup]) ∧
    Event.releaseLock ∉ (main opts env).2 ∧
    Event.writeTimestamp true ∉ (main opts env).2 := by
  have h5' : env.memberUids.isEmpty = false := by
    cases hl : env.memberUids with
    | nil => exact absurd hl h5
    | cons a l => rfl
  have hm : main opts env =
      (Outcome.crashed (PyError.nameError "SYNC_MUK_USERS_LOGFILE"),
       [Event.acquireLock, Event.groupLookup]) := by
    simp [main, h1, h2, h3, h4, h5']
  refine ⟨hm, ?_, ?_⟩ <;> rw [hm] <;> simp

/-- Witness for the amended C9 at a concrete run environment with one
project. -/
theorem nonempty_projects_crash_witness :
    optsRun.nagios = false ∧ envProjects.proceedOnHa = true ∧
    envProjects.lockOk = true ∧ envProjects.bootstrapRaises = false ∧
    envProjects.memberUids ≠ [] ∧
    (main optsRun envProjects =
        (Outcome.crashed (PyError.nameError "SYNC_MUK_USERS_LOGFILE"),
         [Event.acquireLock, Event.groupLookup]) ∧
      Event.releaseLock ∉ (main optsRun envProjects).2 ∧
      Event.writeTimestamp true ∉ (main optsRun envProjects).2) :=
  ⟨rfl, rfl, rfl, rfl, by decide,
   nonempty_projects_crash optsRun envProjects rfl rfl rfl rfl (by decide)⟩

/-- C2 counterexample: a run with dry-run false that completes (necessarily
with fail-count 0) but whose timestamp write raises: the timestamp file is not
written although the run completed with fail-count 0 and dry-run false —
refuting the "if and only if" — and the report is the WARNING downgrade noting
the unwritten timestamp. -/
theorem timestamp_iff_cex :
    optsRun.dry_run = false ∧
    (main optsRun envWriteFail).1 = Outcome.finished ∧
    Event.writeTimestamp true ∉ (main optsRun envWriteFail).2 ∧
    Event.writeTimestamp false ∈ (main optsRun envWriteFail).2 ∧
    Event.cacheReport NAGIOS_EXIT_WARNING
        "muk projects synchronised, filestamp not written" ∈
      (main optsRun envWriteFail).2 := by
  refine ⟨rfl, rfl, by decide, by decide, by decide⟩

/-- C2 (amended): for every run reaching outcome evaluation (lock held, no
bootstrap exception, empty member list — the only runs that complete, and
they complete with fail-count 0): the timestamp write is invoked iff dry-run
is false and the timestamp conversion succeeds; it succeeds iff moreover the
write call does not raise; when the invoked write raises, the WARNING report
noting the unwritten timestamp is cached; the OK report is cached iff the
conversion succeeds and either dry-run is set or the write succeeds. -/
theorem timestamp_write_characterization (opts : Options) (env : MainEnv)
    (h1 : opts.nagios = false) (h2 : env.proceedOnHa = true)
    (h3 : env.lockOk = true) (h4 : env.bootstrapRaises = false)
    (h5 : env.memberUids = []) :
    (Event.writeTimestamp true ∈ (main opts env).2 ↔
      opts.dry_run = false ∧ env.convertRaises = false ∧
        env.writeRaises = false) ∧
    ((Event.writeTimestamp true ∈ (main opts env).2 ∨
        Event.writeTimestamp false ∈ (main opts env).2) ↔
      opts.dry_run = false ∧ env.convertRaises = false) ∧
    (Event.writeTimestamp false ∈ (main opts env).2 →
      Event.cacheReport NAGIOS_EXIT_WARNING
          "muk projects synchronised, filestamp not written" ∈
        (main opts env).2) ∧
    (Event.cacheReport NAGIOS_EXIT_OK "muk projects synchronised" ∈
        (main opts env).2 ↔
      env.convertRaises = false ∧
        (opts.dry_run = true ∨ env.writeRaises = false)) := by
  cases hdr : opts.dry_run <;> cases hcv : env.convertRaises <;>
    cases hwr : env.writeRaises <;> cases hrl : env.releaseOk <;>
      simp [main, releaseOrBork, h1, h2, h3, h4, h5, hdr, hcv, hwr, hrl]

/-- Witness for the amended C2 at a fully successful concrete run. -/
theorem timestamp_write_characterization_witness :
    optsRun.nagios = false ∧ envCleanRun.proceedOnHa = true ∧
    envCleanRun.lockOk = true ∧ envCleanRun.bootstrapRaises = false ∧
    envCleanRun.memberUids = [] ∧
    ((Event.writeTimestamp true ∈ (main optsRun envCleanRun).2 ↔
        optsRun.dry_run = false ∧ envCleanRun.convertRaises = false ∧
          envCleanRun.writeRaises = false) ∧
      ((Event.writeTimestamp true ∈ (main optsRun envCleanRun).2 ∨
          Event.writeTimestamp false ∈ (main optsRun envCleanRun).2) ↔
        optsRun.dry_run = false ∧ envCleanRun.convertRaises = false) ∧
      (Event.writeTimestamp false ∈ (main optsRun envCleanRun).2 →
        Event.cacheReport NAGIOS_EXIT_WARNING
            "muk projects synchronised, filestamp not written" ∈
          (main optsRun envCleanRun).2) ∧
      (Event.cacheReport NAGIOS_EXIT_OK "muk projects synchronised" ∈
          (main optsRun envCleanRun).2 ↔
        envCleanRun.convertRaises = false ∧
          (optsRun.dry_run = true ∨ envCleanRun.writeRaises = false))) :=
  ⟨rfl, rfl, rfl, rfl, rfl,
   timestamp_write_characterization optsRun envCleanRun rfl rfl rfl rfl rfl⟩

end SyncMukProjects
